import Mathlib

/-!
Shallow embedding of the post-collection analytics engine of
`src/graph/nodes/advanced.py` (DigitalFootprintInvestigator), together with
proofs settling claims about it.

Python strings are modelled as Lean `String`s, but every operation the
engine performs on them (`str.replace`, substring tests, ISO-8601 parsing,
`strftime('%Y-%m-%d')`) is implemented here over their character lists
(`String.data`) by executable functions, so that concrete runs reduce in
the kernel.

`datetime.fromisoformat` (the pre-3.11 grammar, the one targeted by the
source's `.replace('Z', '+00:00')` workaround) is modelled by `parseISOChars`:
`YYYY-MM-DD[<any separator char>HH[:MM[:SS[.fff|.ffffff]]][(+|-)HH:MM[:SS]]]`
followed by the constructor range checks of `datetime` (month 1..12, day in
month, hour < 24, minute < 60, second < 60, |timezone offset| < 24 h).  A
timezone written with a fractional-second component is not modelled (it is
treated as a parse failure); no claim involves one.

Python floats produced by the engine (`correlations / total_comparisons`
and `len(set(...)) / len(...)`, both true divisions of small machine
integers) are modelled as exact rationals: every value the claims mention
(0, 1/2, 1) is exactly representable in binary floating point, so equality
and positivity statements transfer verbatim.
-/

namespace DFI

/-- One step of building a Python `set` by insertion, modelled with
first-insertion iteration order: append `x` unless already present. -/
def insertUniq (l : List String) (x : String) : List String :=
  if x ∈ l then l else l ++ [x]

/-- Model of `list(set(xs))` for a list of strings `xs`: deduplication, modelled in
first-occurrence order (CPython's set iteration order is unspecified; the
claims only constrain the underlying set). -/
def pySet (xs : List String) : List String := xs.foldl insertUniq []

/-- Numeric value of a decimal digit character. -/
def chVal (c : Char) : Nat := c.toNat - 48

/-- Parse exactly `n` decimal digits from the front of `cs`, returning the
value and the rest. -/
def parseDigits : Nat → List Char → Option (Nat × List Char)
  | 0, cs => some (0, cs)
  | _ + 1, [] => none
  | n + 1, c :: cs =>
    if c.isDigit then
      match parseDigits n cs with
      | some (v, rest) => some (chVal c * 10 ^ n + v, rest)
      | none => none
    else none

/-- Model of a Python `datetime` value: calendar fields plus an optional
timezone offset in seconds (`none` = naive datetime). -/
structure PyDatetime where
  year : Nat
  month : Nat
  day : Nat
  hour : Nat
  minute : Nat
  second : Nat
  microsecond : Nat
  tzoffset : Option Int
deriving DecidableEq

/-- Fractional-second part after the dot: exactly 3 or 6 digits, not
followed by a further digit, scaled to microseconds. -/
def parseFrac (cs : List Char) : Option (Nat × List Char) :=
  match parseDigits 6 cs with
  | some (v, rest) =>
    match rest with
    | c :: _ => if c.isDigit then none else some (v, rest)
    | [] => some (v, rest)
  | none =>
    match parseDigits 3 cs with
    | some (v, rest) =>
      match rest with
      | c :: _ => if c.isDigit then none else some (v * 1000, rest)
      | [] => some (v * 1000, rest)
    | none => none

/-- Parse the time-of-day part `HH[:MM[:SS[.frac]]]`, returning
`(hour, minute, second, microsecond, rest)`. -/
def parseTime (cs : List Char) : Option (Nat × Nat × Nat × Nat × List Char) :=
  match parseDigits 2 cs with
  | none => none
  | some (hh, rest1) =>
    match rest1 with
    | ':' :: rest2 =>
      match parseDigits 2 rest2 with
      | none => none
      | some (mm, rest3) =>
        match rest3 with
        | ':' :: rest4 =>
          match parseDigits 2 rest4 with
          | none => none
          | some (ss, rest5) =>
            match rest5 with
            | '.' :: rest6 =>
              match parseFrac rest6 with
              | some (us, rest7) => some (hh, mm, ss, us, rest7)
              | none => none
            | _ => some (hh, mm, ss, 0, rest5)
        | _ => some (hh, mm, 0, 0, rest3)
    | _ => some (hh, 0, 0, 0, rest1)

/-- Parse the timezone offset after its sign: `HH:MM[:SS]`, consuming the
whole remaining input; result in seconds. -/
def parseTZTail (cs : List Char) : Option Nat :=
  match parseDigits 2 cs with
  | some (th, ':' :: rest1) =>
    match parseDigits 2 rest1 with
    | some (tm, []) => some (th * 3600 + tm * 60)
    | some (tm, ':' :: rest2) =>
      match parseDigits 2 rest2 with
      | some (ts, []) => some (th * 3600 + tm * 60 + ts)
      | _ => none
    | _ => none
  | _ => none

/-- Proleptic-Gregorian leap year, as in Python's `calendar.isleap`. -/
def isLeap (y : Nat) : Bool := y % 4 == 0 && (y % 100 != 0 || y % 400 == 0)

/-- Number of days of month `m` of year `y`. -/
def daysInMonth (y m : Nat) : Nat :=
  if m == 2 then (if isLeap y then 29 else 28)
  else if m == 4 || m == 6 || m == 9 || m == 11 then 30
  else 31

/-- Days in year `y` before the first day of month `m`. -/
def daysBeforeMonth (y m : Nat) : Nat :=
  (List.range (m - 1)).foldl (fun acc i => acc + daysInMonth y (i + 1)) 0

/-- Python's `date.toordinal()`: day number of the proleptic Gregorian
calendar, with `0001-01-01` being day 1. -/
def toOrdinal (y m d : Nat) : Nat :=
  365 * (y - 1) + (y - 1) / 4 + (y - 1) / 400 - (y - 1) / 100 + daysBeforeMonth y m + d

/-- Range checks of the `datetime` constructor for the date fields. -/
def validDate (y m d : Nat) : Bool :=
  1 ≤ y && y ≤ 9999 && 1 ≤ m && m ≤ 12 && 1 ≤ d && d ≤ daysInMonth y m

/-- Range checks of the `datetime` constructor for the time fields. -/
def validTime (hh mm ss us : Nat) : Bool :=
  hh ≤ 23 && mm ≤ 59 && ss ≤ 59 && us ≤ 999999

/-- Model of `datetime.fromisoformat` (pre-3.11 grammar) over a character
list; see the module comment for the accepted grammar. -/
def parseISOChars (cs : List Char) : Option PyDatetime :=
  match parseDigits 4 cs with
  | none => none
  | some (y, rest0) =>
    match rest0 with
    | '-' :: rest1 =>
      match parseDigits 2 rest1 with
      | none => none
      | some (mo, rest2) =>
        match rest2 with
        | '-' :: rest3 =>
          match parseDigits 2 rest3 with
          | none => none
          | some (d, rest4) =>
            if validDate y mo d then
              match rest4 with
              | [] => some ⟨y, mo, d, 0, 0, 0, 0, none⟩
              | _sep :: timecs =>
                match parseTime timecs with
                | none => none
                | some (hh, mm, ss, us, rest5) =>
                  if validTime hh mm ss us then
                    match rest5 with
                    | [] => some ⟨y, mo, d, hh, mm, ss, us, none⟩
                    | sign :: tzcs =>
                      if sign = '+' || sign = '-' then
                        match parseTZTail tzcs with
                        | none => none
                        | some off =>
                          if off < 86400 then
                            some ⟨y, mo, d, hh, mm, ss, us,
                                  some (if sign = '+' then (off : Int) else -(off : Int))⟩
                          else none
                      else none
                  else none
            else none
        | _ => none
    | _ => none

/-- Python `s.replace('Z', '+00:00')`: every occurrence replaced. -/
def replZ : List Char → List Char
  | [] => []
  | 'Z' :: rest => '+' :: '0' :: '0' :: ':' :: '0' :: '0' :: replZ rest
  | c :: rest => c :: replZ rest

/-- Model of `datetime.fromisoformat(s.replace('Z', '+00:00'))`, as performed by the
engine on every timestamp it parses. -/
def parseTS (s : String) : Option PyDatetime := parseISOChars (replZ s.data)

/-- Microseconds since `0001-01-01T00:00:00` of the wall-clock (naive)
fields of a datetime. -/
def naiveMicro (dt : PyDatetime) : Int :=
  ((toOrdinal dt.year dt.month dt.day * 86400 + dt.hour * 3600 + dt.minute * 60
    + dt.second) * 1000000 + dt.microsecond : Nat)

/-- Python datetime subtraction `d1 - d2` in microseconds: defined for
naive−naive and aware−aware (offset subtracted), raises (`none`) when
mixing naive and aware datetimes. -/
def pyDiffMicro (d1 d2 : PyDatetime) : Option Int :=
  match d1.tzoffset, d2.tzoffset with
  | none, none => some (naiveMicro d1 - naiveMicro d2)
  | some o1, some o2 =>
    some ((naiveMicro d1 - o1 * 1000000) - (naiveMicro d2 - o2 * 1000000))
  | _, _ => none

/-- Decimal digit character for `n < 10`. -/
def digitChar (n : Nat) : Char := Char.ofNat (48 + n)

/-- Two-digit zero-padded decimal rendering (`%m`, `%d`). -/
def pad2 (n : Nat) : List Char := [digitChar (n / 10 % 10), digitChar (n % 10)]

/-- Four-digit zero-padded decimal rendering (`%Y` for years up to 9999). -/
def pad4 (n : Nat) : List Char :=
  [digitChar (n / 1000 % 10), digitChar (n / 100 % 10), digitChar (n / 10 % 10),
   digitChar (n % 10)]

/-- Python `dt.strftime('%Y-%m-%d')`: formats the stored wall-clock fields;
performs no timezone conversion. -/
def fmtYMD (dt : PyDatetime) : String :=
  String.mk (pad4 dt.year ++ '-' :: pad2 dt.month ++ '-' :: pad2 dt.day)

/-- Python substring test `pat in s` for the patterns used by the engine. -/
def hasSubstrChars (pat : List Char) : List Char → Bool
  | [] => pat.isPrefixOf []
  | c :: cs => pat.isPrefixOf (c :: cs) || hasSubstrChars pat cs

/-- Python `pat in s` on strings. -/
def hasSubstr (s pat : String) : Bool := hasSubstrChars pat.data s.data

/-- One raw item of `google_data` / `social_data`: a Python dict whose keys
the engine reads; `none` models an absent key.  `typ` models the `'type'`
key. -/
structure Item where
  platform : Option String
  timestamp : Option String
  typ : Option String
  username : Option String
  email : Option String
  profile_url : Option String
deriving DecidableEq

/-- The `advanced_analysis` flag dict inside `config`; `none` models an
absent key (Python `dict.get(key, False)` reads them). -/
structure AdvancedFlags where
  timeline_correlation : Option Bool
  network_analysis : Option Bool
  deep_content_analysis : Option Bool
deriving DecidableEq

/-- The `config` dict of the state, as read by the node. -/
structure Config where
  advanced_analysis : Option AdvancedFlags
deriving DecidableEq

/-- The slice of `OSINTState` the advanced-analysis node reads:
`state.get('config', {})`, `state.get('google_data', [])`,
`state.get('social_data', [])`.  `none` models an absent key. -/
structure OSINTState where
  config : Option Config
  google_data : Option (List Item)
  social_data : Option (List Item)

/-- A timestamped finding record as assembled by
`_analyze_timeline_correlation`: dict with keys `platform`, `timestamp`,
`content_type`, all present. -/
structure TSRecord where
  platform : String
  timestamp : String
  content_type : String
deriving DecidableEq

/-- One activity cluster `{'date': ..., 'activity_count': ...,
'platforms': ...}` returned by `_find_activity_clusters`. -/
structure Cluster where
  date : String
  activity_count : Nat
  platforms : List String
deriving DecidableEq

/-- One entry `{'platform_1': ..., 'platform_2': ..., 'correlation_score':
...}` returned by `_find_cross_platform_correlations`. -/
structure Correlation where
  platform_1 : String
  platform_2 : String
  correlation_score : ℚ
deriving DecidableEq

/-- A Python number that is either an `int` or a `float` (the engine's
`consistency_score` is the int `0` in one branch and a float ratio in the
other). -/
inductive PyNum where
  | int : Int → PyNum
  | float : ℚ → PyNum
deriving DecidableEq

/-- Result dict of `_analyze_username_consistency`; `total_usernames` is
`none` when the key is absent from the returned dict. -/
structure ConsistencyResult where
  consistency_score : PyNum
  common_patterns : List String
  total_usernames : Option Nat
deriving DecidableEq

/-- Result dict of `_analyze_network_connections`. -/
structure NetworkData where
  unique_identifiers : Nat
  identifier_list : List String
  platform_connections : List (String × List String)
  username_consistency : ConsistencyResult
deriving DecidableEq

/-- Result dict of `_analyze_timeline_correlation`. -/
structure TimelineData where
  total_timestamped_items : Nat
  platforms_with_timestamps : List String
  activity_clusters : List Cluster
  cross_platform_correlations : List Correlation
deriving DecidableEq

/-- The dict returned by `advanced_analysis_node`. -/
structure NodeResult where
  timeline_data : Option TimelineData
  network_data : Option NetworkData
deriving DecidableEq

/-- Python-dict association list with insertion-ordered keys:
`m.setdefault(k, []).append(v)` — append `v` to the entry of `k`, creating
the key at the end on first use (as both dict-building loops of the source
do). -/
def alistAppend (m : List (String × List α)) (k : String) (v : α) :
    List (String × List α) :=
  match m with
  | [] => [(k, [v])]
  | (k', vs) :: rest =>
    if k' = k then (k', vs ++ [v]) :: rest else (k', vs) :: alistAppend rest k v

/-- Lookup in the association list, with `[]` for a missing key. -/
def alook (m : List (String × List α)) (k : String) : List α :=
  match m with
  | [] => []
  | (k', vs) :: rest => if k' = k then vs else alook rest k

/-- The `i < j` pair enumeration
`for i, p1 in enumerate(platforms): for p2 in platforms[i+1:]`. -/
def pairsAfter : List String → List (String × String)
  | [] => []
  | p :: rest => rest.map (fun q => (p, q)) ++ pairsAfter rest

/-- The body of the `try` block of `_calculate_temporal_correlation` for
one pair: both timestamps parse, subtraction does not raise, and the
absolute difference is under 24 hours.  Any exception inside the `try`
(parse failure or naive/aware mixing) yields `false` (the `except:
continue`). -/
def pairCorrelated (a1 a2 : TSRecord) : Bool :=
  match parseTS a1.timestamp, parseTS a2.timestamp with
  | some d1, some d2 =>
    match pyDiffMicro d1 d2 with
    | some δ => decide (δ.natAbs < 86400000000)
    | none => false
  | _, _ => false

/-- Embedding of `_calculate_temporal_correlation(activities1, activities2)`: fraction
of pairwise comparisons within 24 hours.  `correlations` counts the pairs
whose `try` block succeeds with a sub-24h gap; `total_comparisons` is
incremented for every pair *before* the `try` block runs. -/
def _calculate_temporal_correlation (activities1 activities2 : List TSRecord) : ℚ :=
  if activities1 = [] ∨ activities2 = [] then 0
  else
    let p := activities1.foldl
      (fun acc a1 => activities2.foldl
        (fun acc2 a2 =>
          ((if pairCorrelated a1 a2 then acc2.1 + 1 else acc2.1), acc2.2 + 1))
        acc)
      ((0 : Nat), (0 : Nat))
    if p.2 > 0 then (p.1 : ℚ) / (p.2 : ℚ) else 0

/-- The `strftime('%Y-%m-%d')` key of the parsed timestamp of a record, `none` when
parsing fails: the day key used by `_find_activity_clusters`. -/
def dateKey (r : TSRecord) : Option String := (parseTS r.timestamp).map fmtYMD

/-- Loop body of the clustering loop of `_find_activity_clusters`: file the
record under its day key; the `except: continue` on a parse failure leaves
the dict unchanged. -/
def clusterStep (m : List (String × List TSRecord)) (ts : TSRecord) :
    List (String × List TSRecord) :=
  match dateKey ts with
  | some k => alistAppend m k ts
  | none => m

/-- Embedding of `_find_activity_clusters(timestamps)`: group records by `dateKey`
(skipping records whose timestamp fails to parse), then render each group. -/
def _find_activity_clusters (timestamps : List TSRecord) : List Cluster :=
  if timestamps = [] then []
  else
    let clusters := timestamps.foldl clusterStep []
    clusters.map (fun kv => Cluster.mk kv.1 kv.2.length (pySet (kv.2.map (·.platform))))

/-- Loop body of the platform-grouping loop of
`_find_cross_platform_correlations`. -/
def platformStep (m : List (String × List TSRecord)) (ts : TSRecord) :
    List (String × List TSRecord) :=
  alistAppend m ts.platform ts

/-- The `by_platform` dict of `_find_cross_platform_correlations`. -/
def byPlatform (timestamps : List TSRecord) : List (String × List TSRecord) :=
  timestamps.foldl platformStep []

/-- Embedding of `_find_cross_platform_correlations(timestamps)`: partition by platform,
then for each `i < j` pair of platforms keep the pair iff its correlation
score is strictly positive. -/
def _find_cross_platform_correlations (timestamps : List TSRecord) : List Correlation :=
  let by_platform := byPlatform timestamps
  let platforms := by_platform.map (·.1)
  (pairsAfter platforms).foldl
    (fun acc pq =>
      let c := _calculate_temporal_correlation (alook by_platform pq.1) (alook by_platform pq.2)
      if c > 0 then acc ++ [Correlation.mk pq.1 pq.2 c] else acc)
    []

/-- The username filter of `_analyze_username_consistency`:
`not '@' in id and not 'http' in id`. -/
def usernameShaped (id : String) : Bool := !hasSubstr id "@" && !hasSubstr id "http"

/-- Python `max(candidates, key=usernames.count)`: first candidate of
maximal count in iteration order (later candidates replace the current best
only on a strictly larger count). -/
def pyMaxByCount (usernames : List String) : List String → Option String
  | [] => none
  | c :: cs =>
    some (cs.foldl (fun best x => if usernames.count x > usernames.count best then x else best) c)

/-- Embedding of `_analyze_username_consistency(identifiers)`; the argument list is the
iteration order of the Python set of identifiers.  Note the two branches
return dicts with different keys: the empty-filtrate branch has no
`total_usernames` key, and its score is the int `0` while the other
branch's score is a float. -/
def _analyze_username_consistency (identifiers : List String) : ConsistencyResult :=
  let usernames := identifiers.filter usernameShaped
  if usernames = [] then ⟨PyNum.int 0, [], none⟩
  else
    let common_base := pyMaxByCount usernames (pySet usernames)
    ⟨PyNum.float (((pySet usernames).length : ℚ) / (usernames.length : ℚ)),
     match common_base with
     | some u => if u = "" then [] else [u]
     | none => [],
     some usernames.length⟩

/-- One step of collecting the `platforms` set of
`_map_platform_connections`: add the item's platform tag if the key is
present. -/
def platformCollect (acc : List String) (item : Item) : List String :=
  match item.platform with
  | some p => insertUniq acc p
  | none => acc

/-- The `platforms` set of `_map_platform_connections`: all platform tags
observed in `google_data` or `social_data` (iteration modelled in
first-insertion order). -/
def observedPlatforms (state : OSINTState) : List String :=
  (state.social_data.getD []).foldl platformCollect
    ((state.google_data.getD []).foldl platformCollect [])

/-- Embedding of `_map_platform_connections(state)`: collect the set of observed
platform tags, then map each to the list of all others
(`list(platforms - {platform})`). -/
def _map_platform_connections (state : OSINTState) : List (String × List String) :=
  let platforms := observedPlatforms state
  platforms.map (fun p => (p, platforms.filter (fun q => q ≠ p)))

/-- Identifier collection step for a `google_data` item: add `username`
then `email` when present. -/
def googleIdCollect (acc : List String) (item : Item) : List String :=
  let acc1 := match item.username with | some u => insertUniq acc u | none => acc
  match item.email with | some e => insertUniq acc1 e | none => acc1

/-- Identifier collection step for a `social_data` item: add `username`
then `profile_url` when present. -/
def socialIdCollect (acc : List String) (item : Item) : List String :=
  let acc1 := match item.username with | some u => insertUniq acc u | none => acc
  match item.profile_url with | some u => insertUniq acc1 u | none => acc1

/-- The `identifiers` set of `_analyze_network_connections` (iteration
modelled in first-insertion order). -/
def collectIdentifiers (state : OSINTState) : List String :=
  (state.social_data.getD []).foldl socialIdCollect
    ((state.google_data.getD []).foldl googleIdCollect [])

/-- Embedding of `_analyze_network_connections(state)`: collect the identifier set from
both sources, then assemble the network dict. -/
def _analyze_network_connections (state : OSINTState) : NetworkData :=
  let identifiers := collectIdentifiers state
  ⟨identifiers.length, identifiers, _map_platform_connections state,
   _analyze_username_consistency identifiers⟩

/-- The timestamped-record extraction of `_analyze_timeline_correlation`:
google items contribute `('google', ts, 'search_result')`, social items
`(item.get('platform', 'unknown'), ts, item.get('type', 'post'))`; items
without a `timestamp` key are skipped. -/
def extractTimestamps (state : OSINTState) : List TSRecord :=
  let googleTS := (state.google_data.getD []).foldl
    (fun acc item =>
      match item.timestamp with
      | some ts => acc ++ [TSRecord.mk "google" ts "search_result"]
      | none => acc)
    []
  (state.social_data.getD []).foldl
    (fun acc item =>
      match item.timestamp with
      | some ts => acc ++ [TSRecord.mk (item.platform.getD "unknown") ts (item.typ.getD "post")]
      | none => acc)
    googleTS

/-- Embedding of `_analyze_timeline_correlation(state)`. -/
def _analyze_timeline_correlation (state : OSINTState) : TimelineData :=
  let timestamps := extractTimestamps state
  ⟨timestamps.length, pySet (timestamps.map (·.platform)),
   _find_activity_clusters timestamps, _find_cross_platform_correlations timestamps⟩

/-- Embedding of `_enhance_content_analysis(state)`: the function body is `pass`. -/
def _enhance_content_analysis (_state : OSINTState) : Unit := ()

/-- The flag dict actually consulted: `state.get('config',
{}).get('advanced_analysis', {})`. -/
def advancedFlags (state : OSINTState) : AdvancedFlags :=
  (state.config.getD ⟨none⟩).advanced_analysis.getD ⟨none, none, none⟩

/-- Embedding of `advanced_analysis_node(state)`: each flag (read with
`.get(..., False)`) gates its own computation; the `deep_content_analysis`
branch calls the no-op `_enhance_content_analysis`. -/
def advanced_analysis_node (state : OSINTState) : NodeResult :=
  let advanced := advancedFlags state
  let timeline_data :=
    if advanced.timeline_correlation.getD false then some (_analyze_timeline_correlation state)
    else none
  let network_data :=
    if advanced.network_analysis.getD false then some (_analyze_network_connections state)
    else none
  let _ :=
    if advanced.deep_content_analysis.getD false then _enhance_content_analysis state else ()
  ⟨timeline_data, network_data⟩

/-- Number of comparisons `(a1, a2)` whose `try` block succeeds with a gap
strictly under 24 hours: the numerator actually accumulated by
`_calculate_temporal_correlation`. -/
def correlatedPairCount (a1 a2 : List TSRecord) : Nat :=
  (a1.map (fun x => a2.countP (fun y => pairCorrelated x y))).sum

/-- Specification-side count, following the claim's words: number of
comparisons in which both timestamps parse as ISO-8601.  Used to compare
the claimed denominator with the one the code uses. -/
def bothParseCount (a1 a2 : List TSRecord) : Nat :=
  (a1.map (fun x =>
    a2.countP (fun y => (parseTS x.timestamp).isSome && (parseTS y.timestamp).isSome))).sum

/-! ### Lemmas about the Python-set model -/

theorem mem_insertUniq {l : List String} {x a : String} :
    a ∈ insertUniq l x ↔ a ∈ l ∨ a = x := by
  unfold insertUniq
  split
  · next h =>
    constructor
    · exact Or.inl
    · rintro (ha | rfl)
      · exact ha
      · exact h
  · simp

theorem nodup_insertUniq {l : List String} {x : String} (h : l.Nodup) :
    (insertUniq l x).Nodup := by
  unfold insertUniq
  split
  · exact h
  · next hx => simpa [List.nodup_append, h] using hx

theorem foldl_insertUniq_mem (l : List String) (acc : List String) (a : String) :
    a ∈ l.foldl insertUniq acc ↔ a ∈ acc ∨ a ∈ l := by
  induction l generalizing acc with
  | nil => simp
  | cons x xs ih =>
    rw [List.foldl_cons, ih, mem_insertUniq]
    simp [or_assoc, eq_comm]

theorem foldl_insertUniq_nodup (l acc : List String) (h : acc.Nodup) :
    (l.foldl insertUniq acc).Nodup := by
  induction l generalizing acc with
  | nil => exact h
  | cons x xs ih => exact ih _ (nodup_insertUniq h)

theorem mem_pySet {l : List String} {a : String} : a ∈ pySet l ↔ a ∈ l := by
  simp [pySet, foldl_insertUniq_mem]

theorem nodup_pySet (l : List String) : (pySet l).Nodup :=
  foldl_insertUniq_nodup l [] (by simp)

theorem foldl_insertUniq_of_disjoint :
    ∀ (l acc : List String), l.Nodup → (∀ x ∈ l, x ∉ acc) →
      l.foldl insertUniq acc = acc ++ l := by
  intro l
  induction l with
  | nil => simp
  | cons x xs ih =>
    intro acc hnd hdisj
    have hx : x ∉ acc := hdisj x (by simp)
    have hstep : insertUniq acc x = acc ++ [x] := by simp [insertUniq, hx]
    rw [List.foldl_cons, hstep, ih (acc ++ [x]) (List.nodup_cons.mp hnd).2]
    · simp
    · intro y hy
      rw [List.mem_append, List.mem_singleton]
      rintro (hc | rfl)
      · exact hdisj y (List.mem_cons_of_mem x hy) hc
      · exact (List.nodup_cons.mp hnd).1 hy

theorem pySet_eq_self {l : List String} (h : l.Nodup) : pySet l = l := by
  simpa [pySet] using foldl_insertUniq_of_disjoint l [] h (by simp)

/-! ### Lemmas about the dict model -/

theorem alook_alistAppend {α : Type} (m : List (String × List α)) (k k' : String) (v : α) :
    alook (alistAppend m k v) k' = if k' = k then alook m k' ++ [v] else alook m k' := by
  induction m with
  | nil =>
    simp only [alistAppend, alook]
    by_cases h : k' = k
    · simp [h]
    · simp [h, Ne.symm h]
  | cons kv rest ih =>
    rcases kv with ⟨k1, vs⟩
    simp only [alistAppend]
    by_cases hk : k1 = k
    · simp only [if_pos hk]
      by_cases h' : k' = k
      · have he : k1 = k' := hk.trans h'.symm
        simp [alook, he, h']
      · have he : k1 ≠ k' := fun e => h' (e.symm.trans hk)
        simp [alook, he, h']
    · simp only [if_neg hk]
      by_cases hh : k1 = k'
      · have h' : ¬ k' = k := fun e => hk (hh.trans e)
        simp [alook, hh, h']
      · simp [alook, hh, ih]

theorem keys_alistAppend {α : Type} (m : List (String × List α)) (k : String) (v : α) :
    (alistAppend m k v).map (fun kv => kv.1) = insertUniq (m.map (fun kv => kv.1)) k := by
  induction m with
  | nil => simp [alistAppend, insertUniq]
  | cons kv rest ih =>
    rcases kv with ⟨k1, vs⟩
    by_cases hk : k1 = k
    · simp only [alistAppend, if_pos hk, List.map_cons]
      rw [insertUniq, if_pos (by simp [hk])]
    · simp only [alistAppend, if_neg hk, List.map_cons, ih]
      by_cases hmem : k ∈ rest.map (fun kv => kv.1)
      · rw [insertUniq, if_pos hmem, insertUniq, if_pos (by simp [hmem])]
      · rw [insertUniq, if_neg hmem, insertUniq,
          if_neg (by simp [hmem, Ne.symm hk]), List.cons_append]

theorem keys_nodup_alistAppend {α : Type} {m : List (String × List α)}
    (h : (m.map (fun kv => kv.1)).Nodup) (k : String) (v : α) :
    ((alistAppend m k v).map (fun kv => kv.1)).Nodup := by
  rw [keys_alistAppend]; exact nodup_insertUniq h

theorem alook_of_mem {α : Type} :
    ∀ {m : List (String × List α)}, (m.map (fun kv => kv.1)).Nodup →
      ∀ {kv : String × List α}, kv ∈ m → alook m kv.1 = kv.2 := by
  intro m
  induction m with
  | nil => simp
  | cons hd rest ih =>
    intro hnd kv hkv
    rcases List.mem_cons.mp hkv with rfl | hmem
    · simp [alook]
    · have hkey : kv.1 ∈ rest.map (fun kv => kv.1) := List.mem_map_of_mem _ hmem
      have hne : hd.1 ≠ kv.1 := by
        intro e
        exact (List.nodup_cons.mp (by simpa using hnd)).1 (e ▸ hkey)
      have : alook (hd :: rest) kv.1 = alook rest kv.1 := by simp [alook, hne]
      rw [this]
      exact ih (List.nodup_cons.mp (by simpa using hnd)).2 hmem

/-! ### Fold invariants of the grouping loops -/

theorem alook_foldl_clusterStep (l : List TSRecord) (m : List (String × List TSRecord))
    (k : String) :
    alook (l.foldl clusterStep m) k
      = alook m k ++ l.filter (fun r => decide (dateKey r = some k)) := by
  induction l generalizing m with
  | nil => simp
  | cons r rs ih =>
    rw [List.foldl_cons, ih]
    cases hdk : dateKey r with
    | none =>
      have hstep : clusterStep m r = m := by simp [clusterStep, hdk]
      rw [hstep, List.filter_cons]
      simp [hdk]
    | some k0 =>
      have hstep : clusterStep m r = alistAppend m k0 r := by simp [clusterStep, hdk]
      rw [hstep, alook_alistAppend, List.filter_cons]
      by_cases hke : k = k0
      · subst hke
        simp [hdk]
      · simp [hdk, hke, Ne.symm hke]

theorem keys_foldl_clusterStep (l : List TSRecord) (m : List (String × List TSRecord)) :
    (l.foldl clusterStep m).map (fun kv => kv.1)
      = (l.filterMap dateKey).foldl insertUniq (m.map (fun kv => kv.1)) := by
  induction l generalizing m with
  | nil => simp
  | cons r rs ih =>
    rw [List.foldl_cons, ih]
    cases hdk : dateKey r with
    | none => simp [clusterStep, hdk, List.filterMap_cons]
    | some k0 => simp [clusterStep, hdk, List.filterMap_cons, keys_alistAppend]

theorem alook_foldl_platformStep (l : List TSRecord) (m : List (String × List TSRecord))
    (k : String) :
    alook (l.foldl platformStep m) k
      = alook m k ++ l.filter (fun r => decide (r.platform = k)) := by
  induction l generalizing m with
  | nil => simp
  | cons r rs ih =>
    rw [List.foldl_cons, ih]
    simp only [platformStep]
    rw [alook_alistAppend, List.filter_cons]
    by_cases hke : k = r.platform
    · simp [hke]
    · simp [hke, Ne.symm hke]

theorem keys_foldl_platformStep (l : List TSRecord) (m : List (String × List TSRecord)) :
    (l.foldl platformStep m).map (fun kv => kv.1)
      = (l.map (fun r => r.platform)).foldl insertUniq (m.map (fun kv => kv.1)) := by
  induction l generalizing m with
  | nil => simp
  | cons r rs ih => simp [platformStep, ih, keys_alistAppend]

/-! ### The correlation accumulator -/

theorem corr_foldl_inner (a1 : TSRecord) (a2 : List TSRecord) (c t : Nat) :
    a2.foldl
      (fun acc2 y => ((if pairCorrelated a1 y then acc2.1 + 1 else acc2.1), acc2.2 + 1)) (c, t)
      = (c + a2.countP (fun y => pairCorrelated a1 y), t + a2.length) := by
  induction a2 generalizing c t with
  | nil => simp
  | cons y ys ih =>
    rw [List.foldl_cons, ih]
    by_cases h : pairCorrelated a1 y
    · simp [h, List.countP_cons, Prod.mk.injEq]
      omega
    · simp [h, List.countP_cons, Prod.mk.injEq]
      omega

theorem corr_foldl_eq (a1 a2 : List TSRecord) (c t : Nat) :
    a1.foldl
      (fun acc x => a2.foldl
        (fun acc2 y => ((if pairCorrelated x y then acc2.1 + 1 else acc2.1), acc2.2 + 1)) acc)
      (c, t)
      = (c + correlatedPairCount a1 a2, t + a1.length * a2.length) := by
  induction a1 generalizing c t with
  | nil => simp [correlatedPairCount]
  | cons x xs ih =>
    rw [List.foldl_cons, corr_foldl_inner, ih]
    simp only [correlatedPairCount, List.map_cons, List.sum_cons, List.length_cons,
      Prod.mk.injEq]
    constructor
    · omega
    · ring

/-- The score of `_calculate_temporal_correlation` on non-empty inputs:
numerator = comparisons whose `try` succeeds with a sub-24h gap,
denominator = *all* comparisons (`len(activities1) * len(activities2)`),
including those whose `try` block raised. -/
theorem temporal_correlation_eq (a1 a2 : List TSRecord) (h1 : a1 ≠ []) (h2 : a2 ≠ []) :
    _calculate_temporal_correlation a1 a2
      = (correlatedPairCount a1 a2 : ℚ) / ((a1.length * a2.length : Nat) : ℚ) := by
  have hpos : 0 < a1.length * a2.length :=
    Nat.mul_pos (List.length_pos.mpr h1) (List.length_pos.mpr h2)
  simp only [_calculate_temporal_correlation, corr_foldl_eq]
  rw [if_neg (by simp [h1, h2])]
  simp [hpos]

/-! ### Pair enumeration -/

theorem mem_pairsAfter_both {l : List String} {pq : String × String}
    (h : pq ∈ pairsAfter l) : pq.1 ∈ l ∧ pq.2 ∈ l := by
  induction l with
  | nil => simp [pairsAfter] at h
  | cons x xs ih =>
    rw [pairsAfter, List.mem_append] at h
    rcases h with h | h
    · rcases List.mem_map.mp h with ⟨r, hr, he⟩
      subst he
      exact ⟨by simp, by simp [hr]⟩
    · exact ⟨List.mem_cons_of_mem x (ih h).1, List.mem_cons_of_mem x (ih h).2⟩

theorem countP_eq_one_of_nodup {l : List String} (h : l.Nodup) {a : String} (ha : a ∈ l) :
    l.countP (fun r => decide (r = a)) = 1 := by
  induction l with
  | nil => simp at ha
  | cons x xs ih =>
    rcases List.mem_cons.mp ha with rfl | hmem
    · rw [List.countP_cons]
      have hz : xs.countP (fun r => decide (r = a)) = 0 :=
        List.countP_eq_zero.mpr (fun b hb => by
          simp only [decide_eq_true_eq]
          intro e
          exact (List.nodup_cons.mp h).1 (e ▸ hb))
      simp [hz]
    · rw [List.countP_cons]
      have hne : x ≠ a := fun e => (List.nodup_cons.mp h).1 (e ▸ hmem)
      simp [hne, ih (List.nodup_cons.mp h).2 hmem]

theorem pairsAfter_once {l : List String} (hnd : l.Nodup) {p q : String}
    (hp : p ∈ l) (hq : q ∈ l) (hne : p ≠ q) :
    (pairsAfter l).countP (fun r => decide (r = (p, q) ∨ r = (q, p))) = 1 := by
  induction l with
  | nil => simp at hp
  | cons x xs ih =>
    have hxn : x ∉ xs := (List.nodup_cons.mp hnd).1
    have hxs : xs.Nodup := (List.nodup_cons.mp hnd).2
    rw [pairsAfter, List.countP_append, List.countP_map]
    by_cases hpx : p = x
    · have hqxs : q ∈ xs := by
        rcases List.mem_cons.mp hq with h' | h'
        · exact absurd (hpx.trans h'.symm) hne
        · exact h'
      have hmapeq :
          xs.countP ((fun r => decide (r = (p, q) ∨ r = (q, p))) ∘ (fun r => (x, r)))
            = xs.countP (fun r => decide (r = q)) := by
        refine List.countP_congr (fun r _ => ?_)
        simp [Function.comp, Prod.ext_iff, hpx.symm, hne]
      have hrest : (pairsAfter xs).countP (fun r => decide (r = (p, q) ∨ r = (q, p))) = 0 := by
        refine List.countP_eq_zero.mpr (fun b hb => ?_)
        have hb12 := mem_pairsAfter_both hb
        simp only [decide_eq_true_eq]
        rintro (rfl | rfl)
        · exact hxn (hpx ▸ hb12.1)
        · exact hxn (hpx ▸ hb12.2)
      rw [hmapeq, countP_eq_one_of_nodup hxs hqxs, hrest]
    · by_cases hqx : q = x
      · have hpxs : p ∈ xs := by
          rcases List.mem_cons.mp hp with h' | h'
          · exact absurd (h'.trans hqx.symm) hne
          · exact h'
        have hmapeq :
            xs.countP ((fun r => decide (r = (p, q) ∨ r = (q, p))) ∘ (fun r => (x, r)))
              = xs.countP (fun r => decide (r = p)) := by
          refine List.countP_congr (fun r _ => ?_)
          simp [Function.comp, Prod.ext_iff, hqx.symm, Ne.symm hne]
        have hrest : (pairsAfter xs).countP (fun r => decide (r = (p, q) ∨ r = (q, p))) = 0 := by
          refine List.countP_eq_zero.mpr (fun b hb => ?_)
          have hb12 := mem_pairsAfter_both hb
          simp only [decide_eq_true_eq]
          rintro (rfl | rfl)
          · exact hxn (hqx ▸ hb12.2)
          · exact hxn (hqx ▸ hb12.1)
        rw [hmapeq, countP_eq_one_of_nodup hxs hpxs, hrest]
      · have hpxs : p ∈ xs := by
          rcases List.mem_cons.mp hp with h' | h'
          · exact absurd h' hpx
          · exact h'
        have hqxs : q ∈ xs := by
          rcases List.mem_cons.mp hq with h' | h'
          · exact absurd h' hqx
          · exact h'
        have hxp : x ≠ p := fun e => hpx e.symm
        have hxq : x ≠ q := fun e => hqx e.symm
        have hmap0 :
            xs.countP ((fun r => decide (r = (p, q) ∨ r = (q, p))) ∘ (fun r => (x, r))) = 0 := by
          refine List.countP_eq_zero.mpr (fun b _ => ?_)
          simp [Function.comp, Prod.ext_iff, hxp, hxq]
        rw [hmap0, ih hxs hpxs hqxs, Nat.zero_add]

/-! ### The correlation-result fold -/

theorem corrs_foldl_eq (bp : List (String × List TSRecord)) (ps : List (String × String))
    (acc : List Correlation) :
    ps.foldl (fun acc pq =>
        let c := _calculate_temporal_correlation (alook bp pq.1) (alook bp pq.2)
        if c > 0 then acc ++ [Correlation.mk pq.1 pq.2 c] else acc) acc
      = acc ++ ps.filterMap (fun pq =>
          let c := _calculate_temporal_correlation (alook bp pq.1) (alook bp pq.2)
          if c > 0 then some (Correlation.mk pq.1 pq.2 c) else none) := by
  induction ps generalizing acc with
  | nil => simp
  | cons pq rest ih =>
    rw [List.foldl_cons, ih, List.filterMap_cons]
    by_cases h : _calculate_temporal_correlation (alook bp pq.1) (alook bp pq.2) > 0
    · simp [h]
    · simp [h]

/-! ### The most-common-username fold -/

theorem foldl_maxByCount_mem (l : List String) (cs : List String) (c : String) :
    cs.foldl (fun best x => if l.count x > l.count best then x else best) c ∈ c :: cs := by
  induction cs generalizing c with
  | nil => simp
  | cons x xs ih =>
    rw [List.foldl_cons]
    by_cases h : l.count x > l.count c
    · rw [if_pos h]
      rcases List.mem_cons.mp (ih x) with h1 | h1 <;> simp [h1]
    · rw [if_neg h]
      rcases List.mem_cons.mp (ih c) with h1 | h1 <;> simp [h1]

theorem pyMaxByCount_mem {l cands : List String} (h : cands ≠ []) :
    ∃ u, pyMaxByCount l cands = some u ∧ u ∈ cands := by
  cases cands with
  | nil => exact absurd rfl h
  | cons c cs => exact ⟨_, rfl, foldl_maxByCount_mem l cs c⟩

/-! ### Platform collection -/

theorem mem_foldl_platformCollect (l : List Item) (acc : List String) (a : String) :
    a ∈ l.foldl platformCollect acc ↔ a ∈ acc ∨ ∃ item ∈ l, item.platform = some a := by
  induction l generalizing acc with
  | nil => simp
  | cons it its ih =>
    rw [List.foldl_cons, ih]
    cases hp : it.platform with
    | none =>
      have hstep : platformCollect acc it = acc := by simp [platformCollect, hp]
      rw [hstep]
      constructor
      · rintro (h | ⟨item, hm, he⟩)
        · exact Or.inl h
        · exact Or.inr ⟨item, List.mem_cons_of_mem it hm, he⟩
      · rintro (h | ⟨item, hm, he⟩)
        · exact Or.inl h
        · rcases List.mem_cons.mp hm with rfl | hm
          · rw [hp] at he; cases he
          · exact Or.inr ⟨item, hm, he⟩
    | some p =>
      have hstep : platformCollect acc it = insertUniq acc p := by simp [platformCollect, hp]
      rw [hstep]
      constructor
      · rintro (h | ⟨item, hm, he⟩)
        · rcases mem_insertUniq.mp h with h | rfl
          · exact Or.inl h
          · exact Or.inr ⟨it, List.mem_cons_self it its, hp⟩
        · exact Or.inr ⟨item, List.mem_cons_of_mem it hm, he⟩
      · rintro (h | ⟨item, hm, he⟩)
        · exact Or.inl (mem_insertUniq.mpr (Or.inl h))
        · rcases List.mem_cons.mp hm with rfl | hm
          · rw [hp] at he
            rcases Option.some_inj.mp he
            exact Or.inl (mem_insertUniq.mpr (Or.inr rfl))
          · exact Or.inr ⟨item, hm, he⟩

theorem nodup_foldl_platformCollect (l : List Item) (acc : List String) (h : acc.Nodup) :
    (l.foldl platformCollect acc).Nodup := by
  induction l generalizing acc with
  | nil => exact h
  | cons it its ih =>
    rw [List.foldl_cons]
    refine ih _ ?_
    cases hp : it.platform with
    | none => simpa [platformCollect, hp] using h
    | some p =>
      simp only [platformCollect, hp]
      exact nodup_insertUniq h

theorem nodup_observedPlatforms (s : OSINTState) : (observedPlatforms s).Nodup :=
  nodup_foldl_platformCollect _ _ (nodup_foldl_platformCollect _ _ (by simp))

theorem mem_observedPlatforms {s : OSINTState} {a : String} :
    a ∈ observedPlatforms s ↔
      (∃ item ∈ s.google_data.getD [], item.platform = some a) ∨
      (∃ item ∈ s.social_data.getD [], item.platform = some a) := by
  rw [observedPlatforms, mem_foldl_platformCollect, mem_foldl_platformCollect]
  simp [or_comm]

/-! ### Shape of the node result -/

theorem node_timeline_eq (s : OSINTState) :
    (advanced_analysis_node s).timeline_data
      = if (advancedFlags s).timeline_correlation.getD false
        then some (_analyze_timeline_correlation s) else none := rfl

theorem node_network_eq (s : OSINTState) :
    (advanced_analysis_node s).network_data
      = if (advancedFlags s).network_analysis.getD false
        then some (_analyze_network_connections s) else none := rfl

/-! ## The claims -/

/-- C1: for two timestamped records on distinct platforms (one record per
platform), `_calculate_temporal_correlation` returns exactly `1.0` when
the parsed timestamps differ by 86,399 seconds and exactly `0.0` when they
differ by exactly 86,400 seconds: the 24-hour window comparison is a strict
less-than, so a gap of exactly 24 h never counts as correlated. -/
theorem claim1_temporal_boundary (r1 r2 : TSRecord) (d1 d2 : PyDatetime) (δ : Int)
    (_hplat : r1.platform ≠ r2.platform)
    (h1 : parseTS r1.timestamp = some d1) (h2 : parseTS r2.timestamp = some d2)
    (hd : pyDiffMicro d1 d2 = some δ) :
    (δ.natAbs = 86399 * 1000000 → _calculate_temporal_correlation [r1] [r2] = 1) ∧
    (δ.natAbs = 86400 * 1000000 → _calculate_temporal_correlation [r1] [r2] = 0) := by
  have he := temporal_correlation_eq [r1] [r2] (by simp) (by simp)
  have hcount :
      correlatedPairCount [r1] [r2] = if pairCorrelated r1 r2 then 1 else 0 := by
    simp [correlatedPairCount, List.countP_cons]
  constructor
  · intro habs
    have hpc : pairCorrelated r1 r2 = true := by
      simp [pairCorrelated, h1, h2, hd, habs]
    rw [he, hcount, if_pos hpc]
    norm_num
  · intro habs
    have hpc : pairCorrelated r1 r2 = false := by
      simp [pairCorrelated, h1, h2, hd, habs]
    rw [he, hcount, if_neg (by simp [hpc])]
    norm_num

/-- Witness for C1 at concrete records: `2024-01-15T00:00:00Z` paired with
`2024-01-15T23:59:59Z` (86,399 s apart) scores `1.0`, and paired with
`2024-01-16T00:00:00Z` (86,400 s apart) scores `0.0`. -/
theorem claim1_temporal_boundary_witness :
    parseTS "2024-01-15T00:00:00Z" = some ⟨2024, 1, 15, 0, 0, 0, 0, some 0⟩ ∧
    parseTS "2024-01-15T23:59:59Z" = some ⟨2024, 1, 15, 23, 59, 59, 0, some 0⟩ ∧
    parseTS "2024-01-16T00:00:00Z" = some ⟨2024, 1, 16, 0, 0, 0, 0, some 0⟩ ∧
    _calculate_temporal_correlation [⟨"twitter", "2024-01-15T00:00:00Z", "post"⟩]
      [⟨"github", "2024-01-15T23:59:59Z", "post"⟩] = 1 ∧
    _calculate_temporal_correlation [⟨"twitter", "2024-01-15T00:00:00Z", "post"⟩]
      [⟨"github", "2024-01-16T00:00:00Z", "post"⟩] = 0 := by
  refine ⟨by decide, by decide, by decide, ?_, ?_⟩
  · exact (claim1_temporal_boundary ⟨"twitter", "2024-01-15T00:00:00Z", "post"⟩
      ⟨"github", "2024-01-15T23:59:59Z", "post"⟩ ⟨2024, 1, 15, 0, 0, 0, 0, some 0⟩
      ⟨2024, 1, 15, 23, 59, 59, 0, some 0⟩ (-86399000000) (by decide) (by decide) (by decide)
      (by decide)).1 (by decide)
  · exact (claim1_temporal_boundary ⟨"twitter", "2024-01-15T00:00:00Z", "post"⟩
      ⟨"github", "2024-01-16T00:00:00Z", "post"⟩ ⟨2024, 1, 15, 0, 0, 0, 0, some 0⟩
      ⟨2024, 1, 16, 0, 0, 0, 0, some 0⟩ (-86400000000) (by decide) (by decide) (by decide)
      (by decide)).2 (by decide)

/-- C2 counterexample: with `activities1 = [well-formed, malformed]` and
`activities2 = [well-formed]` (the two well-formed timestamps one hour
apart), the pair with the malformed timestamp stays in the denominator:
the code returns `1/2`, while the claimed formula (well-formed pairs within
24 h over pairs in which both timestamps parse) gives `1/1 = 1`. -/
theorem claim2_counterexample :
    _calculate_temporal_correlation
        [⟨"p", "2024-01-01T00:00:00Z", "post"⟩, ⟨"p", "not-a-date", "post"⟩]
        [⟨"q", "2024-01-01T01:00:00Z", "post"⟩] = 1 / 2 ∧
    correlatedPairCount
        [⟨"p", "2024-01-01T00:00:00Z", "post"⟩, ⟨"p", "not-a-date", "post"⟩]
        [⟨"q", "2024-01-01T01:00:00Z", "post"⟩] = 1 ∧
    bothParseCount
        [⟨"p", "2024-01-01T00:00:00Z", "post"⟩, ⟨"p", "not-a-date", "post"⟩]
        [⟨"q", "2024-01-01T01:00:00Z", "post"⟩] = 1 ∧
    (1 : ℚ) / 2 ≠ (1 : ℚ) / 1 := by
  refine ⟨?_, by decide, by decide, by norm_num⟩
  have hrw := temporal_correlation_eq
    [(⟨"p", "2024-01-01T00:00:00Z", "post"⟩ : TSRecord), ⟨"p", "not-a-date", "post"⟩]
    [(⟨"q", "2024-01-01T01:00:00Z", "post"⟩ : TSRecord)] (by simp) (by simp)
  rw [hrw]
  rw [show correlatedPairCount
        [⟨"p", "2024-01-01T00:00:00Z", "post"⟩, ⟨"p", "not-a-date", "post"⟩]
        [⟨"q", "2024-01-01T01:00:00Z", "post"⟩] = 1 from by decide]
  norm_num

/-- C2 amended: a comparison in which either timestamp fails to parse is
excluded from the numerator only; the denominator counts *all*
`len(activities1) * len(activities2)` comparisons, malformed ones included,
and the computation never raises (total function). -/
theorem claim2_malformed_in_denominator (a1 a2 : List TSRecord)
    (h1 : a1 ≠ []) (h2 : a2 ≠ []) :
    _calculate_temporal_correlation a1 a2
      = (correlatedPairCount a1 a2 : ℚ) / ((a1.length * a2.length : Nat) : ℚ) ∧
    (∀ x y : TSRecord, parseTS x.timestamp = none ∨ parseTS y.timestamp = none →
      pairCorrelated x y = false) := by
  refine ⟨temporal_correlation_eq a1 a2 h1 h2, ?_⟩
  rintro x y (hx | hy)
  · simp [pairCorrelated, hx]
  · cases hx' : parseTS x.timestamp <;> simp [pairCorrelated, hx', hy]

/-- Witness for C2 (amended) on the counterexample input: the score is the
single correlated pair over all `2 × 1` comparisons. -/
theorem claim2_malformed_in_denominator_witness :
    _calculate_temporal_correlation
        [⟨"p", "2024-01-01T00:00:00Z", "post"⟩, ⟨"p", "not-a-date", "post"⟩]
        [⟨"q", "2024-01-01T01:00:00Z", "post"⟩]
      = (correlatedPairCount
          [⟨"p", "2024-01-01T00:00:00Z", "post"⟩, ⟨"p", "not-a-date", "post"⟩]
          [⟨"q", "2024-01-01T01:00:00Z", "post"⟩] : ℚ)
        / ((List.length ([⟨"p", "2024-01-01T00:00:00Z", "post"⟩,
              ⟨"p", "not-a-date", "post"⟩] : List TSRecord)
            * List.length [(⟨"q", "2024-01-01T01:00:00Z", "post"⟩ : TSRecord)] : Nat) : ℚ) :=
  (claim2_malformed_in_denominator _ _ (by simp) (by simp)).1

/-- C3 counterexample: on the empty identifier set the returned dict has
*no* `total_usernames` key (the empty-filtrate branch returns only
`consistency_score` and `common_patterns`), contradicting the claimed
`{consistency_score: 0, common_patterns: [], total_usernames: 0}`. -/
theorem claim3_counterexample :
    (_analyze_username_consistency []).total_usernames = none ∧
    _analyze_username_consistency [] ≠ ⟨PyNum.int 0, [], some 0⟩ := by decide

/-- C3 amended: for every identifier set whose filtrate of username-shaped
entries is empty, `_analyze_username_consistency` returns the integer
sentinel score `0` (not the float `0.0`) and the empty pattern list, with
the `total_usernames` key absent from the returned dict. -/
theorem claim3_empty_filtrate (identifiers : List String)
    (h : identifiers.filter usernameShaped = []) :
    _analyze_username_consistency identifiers = ⟨PyNum.int 0, [], none⟩ := by
  simp [_analyze_username_consistency, h]

/-- Witness for C3 (amended) at the empty set and at a set of one email and
one URL (filtrate empty in both cases). -/
theorem claim3_empty_filtrate_witness :
    List.filter usernameShaped ["john@example.com", "https://github.com/johndoe"] = [] ∧
    _analyze_username_consistency ["john@example.com", "https://github.com/johndoe"]
      = ⟨PyNum.int 0, [], none⟩ :=
  ⟨by decide, claim3_empty_filtrate _ (by decide)⟩

/-- C4 counterexample: on a state with no `config` key at all (and
non-trivial collected data), `advanced_analysis_node` raises nothing and
returns the ordinary all-`None` result — the very same result as for an
explicit all-false flag configuration.  The missing flags structure is
silently defaulted, not propagated as an error. -/
theorem claim4_counterexample :
    advanced_analysis_node
        ⟨none,
         some [⟨some "github", some "2024-01-15T10:00:00Z", none, some "johndoe",
                some "john@example.com", none⟩],
         some [⟨some "reddit", some "2024-01-16T09:00:00Z", some "comment", some "johndoe",
                none, some "https://reddit.com/u/johndoe"⟩]⟩
      = ⟨none, none⟩ ∧
    advanced_analysis_node
        ⟨none,
         some [⟨some "github", some "2024-01-15T10:00:00Z", none, some "johndoe",
                some "john@example.com", none⟩],
         some [⟨some "reddit", some "2024-01-16T09:00:00Z", some "comment", some "johndoe",
                none, some "https://reddit.com/u/johndoe"⟩]⟩
      = advanced_analysis_node
          ⟨some ⟨some ⟨some false, some false, some false⟩⟩,
           some [⟨some "github", some "2024-01-15T10:00:00Z", none, some "johndoe",
                  some "john@example.com", none⟩],
           some [⟨some "reddit", some "2024-01-16T09:00:00Z", some "comment", some "johndoe",
                  none, some "https://reddit.com/u/johndoe"⟩]⟩ := by
  exact ⟨rfl, rfl⟩

/-- C4 amended: when the `config` structure is absent entirely, the node
silently treats every flag as false (`state.get('config', {})` then
`.get('advanced_analysis', {})`) and returns both outputs as `None` for any
collected data; no error is propagated to the caller. -/
theorem claim4_missing_config_defaults (gd sd : Option (List Item)) :
    advanced_analysis_node ⟨none, gd, sd⟩ = ⟨none, none⟩ := rfl

/-- C5 counterexample: two records denoting the *same instant* — one
written with a `-05:00` offset, one in UTC — land in *different* clusters:
`strftime('%Y-%m-%d')` formats the parsed wall-clock fields without
converting to UTC, so grouping is by the date as written in the
timestamp's own offset, not by the UTC calendar date. -/
theorem claim5_counterexample :
    pyDiffMicro ⟨2024, 1, 15, 23, 0, 0, 0, some (-18000)⟩ ⟨2024, 1, 16, 4, 0, 0, 0, some 0⟩
      = some 0 ∧
    parseTS "2024-01-15T23:00:00-05:00" = some ⟨2024, 1, 15, 23, 0, 0, 0, some (-18000)⟩ ∧
    parseTS "2024-01-16T04:00:00Z" = some ⟨2024, 1, 16, 4, 0, 0, 0, some 0⟩ ∧
    _find_activity_clusters
        [⟨"a", "2024-01-15T23:00:00-05:00", "post"⟩, ⟨"b", "2024-01-16T04:00:00Z", "post"⟩]
      = [⟨"2024-01-15", 1, ["a"]⟩, ⟨"2024-01-16", 1, ["b"]⟩] := by decide

/-- C5 amended: `_find_activity_clusters` groups the records whose
timestamps parse (after replacing every `Z` with `+00:00`) by the
`%Y-%m-%d` rendering of the parsed *wall-clock* fields — the calendar date
in the timestamp's own offset, which coincides with the UTC date exactly
for UTC-offset timestamps — skipping unparseable timestamps; each
cluster's `activity_count` is the number of records with that day key and
its `platforms` field is the deduplicated set of their platform tags, and
on the claim's concrete all-UTC input the output is exactly the two
expected clusters. -/
theorem claim5_clusters (ts : List TSRecord) :
    ((_find_activity_clusters ts).map (fun c => c.date) = pySet (ts.filterMap dateKey)) ∧
    (∀ c ∈ _find_activity_clusters ts,
      c.activity_count = (ts.filter (fun r => decide (dateKey r = some c.date))).length ∧
      c.platforms = pySet ((ts.filter (fun r => decide (dateKey r = some c.date))).map
        (fun r => r.platform))) ∧
    _find_activity_clusters
        [⟨"twitter", "2024-01-15T10:00:00Z", "post"⟩, ⟨"github", "2024-01-15T14:00:00Z", "post"⟩,
         ⟨"reddit", "2024-01-16T09:00:00Z", "post"⟩]
      = [⟨"2024-01-15", 2, ["twitter", "github"]⟩, ⟨"2024-01-16", 1, ["reddit"]⟩] := by
  refine ⟨?_, ?_, by decide⟩
  · by_cases hts : ts = []
    · subst hts
      simp [_find_activity_clusters, pySet]
    · simp only [_find_activity_clusters]
      rw [if_neg hts, List.map_map]
      have hcomp : ((fun c => c.date) ∘
          (fun kv : String × List TSRecord =>
            Cluster.mk kv.1 kv.2.length (pySet (kv.2.map (fun r => r.platform)))))
          = (fun kv => kv.1) := rfl
      rw [hcomp, keys_foldl_clusterStep]
      simp [pySet]
  · intro c hc
    by_cases hts : ts = []
    · subst hts
      simp [_find_activity_clusters] at hc
    · simp only [_find_activity_clusters] at hc
      rw [if_neg hts] at hc
      obtain ⟨kv, hkv, rfl⟩ := List.mem_map.mp hc
      have hnd : ((ts.foldl clusterStep []).map (fun kv => kv.1)).Nodup := by
        rw [keys_foldl_clusterStep]
        exact foldl_insertUniq_nodup _ _ (by simp)
      have hlook := alook_of_mem hnd hkv
      have hfil := alook_foldl_clusterStep ts [] kv.1
      rw [hlook] at hfil
      have hkv2 : kv.2 = ts.filter (fun r => decide (dateKey r = some kv.1)) := by
        rw [hfil]; rfl
      exact ⟨by rw [hkv2], by rw [hkv2]⟩

/-- C6: on every input state, a false `timeline_correlation` flag yields
`timeline_data = None` and a false `network_analysis` flag yields
`network_data = None`, regardless of the collected data; and each flag
gates only its own computation — two states with the same collected data
and the same value of one flag agree on that flag's output whatever their
other configuration. -/
theorem claim6_flag_gating (s : OSINTState) :
    ((advancedFlags s).timeline_correlation.getD false = false →
      (advanced_analysis_node s).timeline_data = none) ∧
    ((advancedFlags s).network_analysis.getD false = false →
      (advanced_analysis_node s).network_data = none) ∧
    (∀ s' : OSINTState, s.google_data = s'.google_data → s.social_data = s'.social_data →
      ((advancedFlags s).timeline_correlation.getD false
          = (advancedFlags s').timeline_correlation.getD false →
        (advanced_analysis_node s).timeline_data = (advanced_analysis_node s').timeline_data) ∧
      ((advancedFlags s).network_analysis.getD false
          = (advancedFlags s').network_analysis.getD false →
        (advanced_analysis_node s).network_data = (advanced_analysis_node s').network_data)) := by
  refine ⟨?_, ?_, ?_⟩
  · intro h
    rw [node_timeline_eq, h]
    simp
  · intro h
    rw [node_network_eq, h]
    simp
  · intro s' hg hs
    obtain ⟨c, g, so⟩ := s
    obtain ⟨c', g', so'⟩ := s'
    cases hg
    cases hs
    constructor
    · intro hf
      rw [node_timeline_eq, node_timeline_eq, hf]
      have ht : _analyze_timeline_correlation ⟨c, g, so⟩
          = _analyze_timeline_correlation ⟨c', g, so⟩ := rfl
      rw [ht]
    · intro hf
      rw [node_network_eq, node_network_eq, hf]
      have hn : _analyze_network_connections ⟨c, g, so⟩
          = _analyze_network_connections ⟨c', g, so⟩ := rfl
      rw [hn]

/-- Witness for C6 at a concrete state whose timeline and network flags are
false but whose `deep_content_analysis` flag is true and whose data is
non-empty: both outputs are `None`. -/
theorem claim6_flag_gating_witness :
    (advanced_analysis_node
        ⟨some ⟨some ⟨some false, some false, some true⟩⟩,
         some [⟨some "github", some "2024-01-15T10:00:00Z", none, none, none, none⟩],
         some []⟩).timeline_data = none ∧
    (advanced_analysis_node
        ⟨some ⟨some ⟨some false, some false, some true⟩⟩,
         some [⟨some "github", some "2024-01-15T10:00:00Z", none, none, none, none⟩],
         some []⟩).network_data = none :=
  ⟨(claim6_flag_gating _).1 rfl, (claim6_flag_gating _).2.1 rfl⟩

/-- C7: an unordered platform pair appears in
`_find_cross_platform_correlations` iff its score is strictly positive:
membership is exactly "an `i < j` pair of the platform list whose computed
score is `> 0`"; each unordered pair of distinct platforms is enumerated
exactly once by the `i < j` loop; the platform list is the deduplicated
list of platform tags; and the pairwise helper returns `0.0` whenever
either activity list is empty (`correlate([], l) = correlate(l, []) = 0`). -/
theorem claim7_pair_retention (ts : List TSRecord) :
    (∀ e : Correlation, e ∈ _find_cross_platform_correlations ts ↔
      ((e.platform_1, e.platform_2) ∈ pairsAfter ((byPlatform ts).map (fun kv => kv.1)) ∧
       e.correlation_score
         = _calculate_temporal_correlation (alook (byPlatform ts) e.platform_1)
             (alook (byPlatform ts) e.platform_2) ∧
       e.correlation_score > 0)) ∧
    (∀ p q : String, p ∈ (byPlatform ts).map (fun kv => kv.1) →
      q ∈ (byPlatform ts).map (fun kv => kv.1) → p ≠ q →
      (pairsAfter ((byPlatform ts).map (fun kv => kv.1))).countP
        (fun r => decide (r = (p, q) ∨ r = (q, p))) = 1) ∧
    ((byPlatform ts).map (fun kv => kv.1) = pySet (ts.map (fun r => r.platform))) ∧
    (∀ l : List TSRecord, _calculate_temporal_correlation [] l = 0 ∧
      _calculate_temporal_correlation l [] = 0) := by
  have hkeys : (byPlatform ts).map (fun kv => kv.1) = pySet (ts.map (fun r => r.platform)) := by
    rw [byPlatform, keys_foldl_platformStep]
    simp [pySet]
  refine ⟨?_, ?_, hkeys, ?_⟩
  · intro e
    simp only [_find_cross_platform_correlations]
    rw [corrs_foldl_eq, List.nil_append, List.mem_filterMap]
    constructor
    · rintro ⟨pq, hpq, hf⟩
      by_cases hc : _calculate_temporal_correlation (alook (byPlatform ts) pq.1)
          (alook (byPlatform ts) pq.2) > 0
      · rw [if_pos hc] at hf
        obtain rfl := Option.some_inj.mp hf
        exact ⟨hpq, rfl, hc⟩
      · rw [if_neg hc] at hf
        cases hf
    · rintro ⟨hmem, hscore, hpos⟩
      refine ⟨(e.platform_1, e.platform_2), hmem, ?_⟩
      dsimp only
      rw [← hscore, if_pos hpos]
  · intro p q hp hq hne
    refine pairsAfter_once ?_ hp hq hne
    rw [hkeys]
    exact nodup_pySet _
  · intro l
    constructor
    · simp [_calculate_temporal_correlation]
    · simp [_calculate_temporal_correlation]

/-- Witness for C7: the empty-list laws of the pairwise helper at concrete
inputs, obtained from the theorem. -/
theorem claim7_pair_retention_witness :
    _calculate_temporal_correlation [] [⟨"a", "2024-01-15T10:00:00Z", "post"⟩] = 0 ∧
    _calculate_temporal_correlation [⟨"a", "2024-01-15T10:00:00Z", "post"⟩] [] = 0 :=
  ⟨((claim7_pair_retention []).2.2.2 [⟨"a", "2024-01-15T10:00:00Z", "post"⟩]).1,
   ((claim7_pair_retention []).2.2.2 [⟨"a", "2024-01-15T10:00:00Z", "post"⟩]).2⟩

/-- Witness for C4 (amended) at a concrete config-less state. -/
theorem claim4_missing_config_defaults_witness :
    advanced_analysis_node
        ⟨none, some [⟨some "github", some "2024-01-15T10:00:00Z", none, none, none, none⟩], none⟩
      = ⟨none, none⟩ :=
  claim4_missing_config_defaults
    (some [⟨some "github", some "2024-01-15T10:00:00Z", none, none, none, none⟩]) none

/-- Witness for C5 (amended): the date keys of the clusters of the claim's
concrete input are the deduplicated day keys of its records. -/
theorem claim5_clusters_witness :
    (_find_activity_clusters
        [⟨"twitter", "2024-01-15T10:00:00Z", "post"⟩, ⟨"github", "2024-01-15T14:00:00Z", "post"⟩,
         ⟨"reddit", "2024-01-16T09:00:00Z", "post"⟩]).map (fun c => c.date)
      = pySet ([(⟨"twitter", "2024-01-15T10:00:00Z", "post"⟩ : TSRecord),
          ⟨"github", "2024-01-15T14:00:00Z", "post"⟩,
          ⟨"reddit", "2024-01-16T09:00:00Z", "post"⟩].filterMap dateKey) :=
  (claim5_clusters
    [⟨"twitter", "2024-01-15T10:00:00Z", "post"⟩, ⟨"github", "2024-01-15T14:00:00Z", "post"⟩,
     ⟨"reddit", "2024-01-16T09:00:00Z", "post"⟩]).1

/-- C8: `_map_platform_connections` maps each observed platform tag to
exactly the set of all other observed platform tags: its keys are the
observed platforms, each entry's connection list holds exactly the other
observed platforms, the relation is symmetric and has no self-loops, and
"observed" means carrying a `platform` key in `google_data` or
`social_data`. -/
theorem claim8_connection_map (s : OSINTState) :
    ((_map_platform_connections s).map (fun kv => kv.1) = observedPlatforms s) ∧
    (∀ p conns, (p, conns) ∈ _map_platform_connections s →
      ∀ q, q ∈ conns ↔ q ∈ observedPlatforms s ∧ q ≠ p) ∧
    (∀ p conns, (p, conns) ∈ _map_platform_connections s → p ∉ conns) ∧
    (∀ p q cp cq, (p, cp) ∈ _map_platform_connections s →
      (q, cq) ∈ _map_platform_connections s → (q ∈ cp ↔ p ∈ cq)) ∧
    (∀ a, a ∈ observedPlatforms s ↔
      (∃ item ∈ s.google_data.getD [], item.platform = some a) ∨
      (∃ item ∈ s.social_data.getD [], item.platform = some a)) := by
  have hmm : ∀ p conns, (p, conns) ∈ _map_platform_connections s →
      p ∈ observedPlatforms s ∧ ∀ q, q ∈ conns ↔ q ∈ observedPlatforms s ∧ q ≠ p := by
    intro p conns h
    simp only [_map_platform_connections, List.mem_map] at h
    obtain ⟨p0, hp0, he⟩ := h
    obtain ⟨he1, he2⟩ := Prod.mk.injEq p0 _ p conns |>.mp he
    subst he1
    refine ⟨hp0, fun q => ?_⟩
    rw [← he2, List.mem_filter]
    simp
  refine ⟨?_, fun p conns h => (hmm p conns h).2, ?_, ?_, fun a => mem_observedPlatforms⟩
  · simp only [_map_platform_connections, List.map_map]
    exact List.map_id _
  · intro p conns h
    rw [(hmm p conns h).2 p]
    simp
  · intro p q cp cq hp hq
    rw [(hmm p cp hp).2 q, (hmm q cq hq).2 p]
    have hpo := (hmm p cp hp).1
    have hqo := (hmm q cq hq).1
    constructor
    · rintro ⟨-, hne⟩
      exact ⟨hpo, fun e => hne e.symm⟩
    · rintro ⟨-, hne⟩
      exact ⟨hqo, fun e => hne e.symm⟩

/-- Witness for C8 at a concrete two-platform state: the connectivity
keys are exactly the observed platforms. -/
theorem claim8_connection_map_witness :
    (_map_platform_connections
        ⟨none, some [⟨some "github", none, none, none, none, none⟩],
         some [⟨some "reddit", none, none, none, none, none⟩]⟩).map (fun kv => kv.1)
      = observedPlatforms
          ⟨none, some [⟨some "github", none, none, none, none, none⟩],
           some [⟨some "reddit", none, none, none, none, none⟩]⟩ :=
  (claim8_connection_map
    ⟨none, some [⟨some "github", none, none, none, none, none⟩],
     some [⟨some "reddit", none, none, none, none, none⟩]⟩).1

/-- C9: the node's result depends only on the two flags and the collected
data: any two states agreeing on `google_data`, `social_data`,
`timeline_correlation` and `network_analysis` — whatever their other
configuration entries, e.g. the `deep_content_analysis` flag — receive
identical results. -/
theorem claim9_noninterference (s s' : OSINTState)
    (hg : s.google_data = s'.google_data) (hs : s.social_data = s'.social_data)
    (ht : (advancedFlags s).timeline_correlation.getD false
        = (advancedFlags s').timeline_correlation.getD false)
    (hn : (advancedFlags s).network_analysis.getD false
        = (advancedFlags s').network_analysis.getD false) :
    advanced_analysis_node s = advanced_analysis_node s' := by
  obtain ⟨c, g, so⟩ := s
  obtain ⟨c', g', so'⟩ := s'
  cases hg
  cases hs
  have hu : ∀ u : NodeResult, u = ⟨u.timeline_data, u.network_data⟩ := fun u => by
    cases u
    rfl
  rw [hu (advanced_analysis_node ⟨c, g, so⟩), hu (advanced_analysis_node ⟨c', g, so⟩)]
  have h1 : _analyze_timeline_correlation ⟨c, g, so⟩
      = _analyze_timeline_correlation ⟨c', g, so⟩ := rfl
  have h2 : _analyze_network_connections ⟨c, g, so⟩
      = _analyze_network_connections ⟨c', g, so⟩ := rfl
  rw [node_timeline_eq, node_timeline_eq, node_network_eq, node_network_eq, ht, hn, h1, h2]

/-- Witness for C9: two concrete states that differ only in the
`deep_content_analysis` flag receive identical results. -/
theorem claim9_noninterference_witness :
    advanced_analysis_node
        ⟨some ⟨some ⟨some true, some true, some false⟩⟩,
         some [⟨some "github", some "2024-01-15T10:00:00Z", none, some "johndoe", none, none⟩],
         some []⟩
      = advanced_analysis_node
          ⟨some ⟨some ⟨some true, some true, some true⟩⟩,
           some [⟨some "github", some "2024-01-15T10:00:00Z", none, some "johndoe", none, none⟩],
           some []⟩ :=
  claim9_noninterference _ _ rfl rfl rfl rfl

/-- C10 counterexample: on the identifier set `{""}` the filtrate is the
non-empty `[""]`, yet `common_patterns` is the *empty* list: the selected
most-common username is the empty string, which is falsy in Python, so
`[common_base] if common_base else []` yields `[]`, not a one-element
list. -/
theorem claim10_counterexample :
    List.Nodup [""] ∧ List.filter usernameShaped [""] = [""] ∧
    (_analyze_username_consistency [""]).common_patterns = [] := by decide

/-- C10 amended: for every identifier set (modelled as a duplicate-free
list) whose filtrate of username-shaped entries is non-empty, the
consistency score is exactly the float `1.0` (never strictly between 0 and
1, so it never measures handle reuse), `total_usernames` is the number of
filtered entries, and `common_patterns` is `[u]` for some filtered
username `u` — except that it is `[]` when the selected `u` is the empty
string (Python falsiness). -/
theorem claim10_consistency_score_one (identifiers : List String)
    (hnd : identifiers.Nodup) (hne : identifiers.filter usernameShaped ≠ []) :
    ∃ u ∈ identifiers.filter usernameShaped,
      _analyze_username_consistency identifiers
        = ⟨PyNum.float 1, if u = "" then [] else [u],
           some (identifiers.filter usernameShaped).length⟩ := by
  have husnd : (identifiers.filter usernameShaped).Nodup := hnd.filter _
  have hset : pySet (identifiers.filter usernameShaped) = identifiers.filter usernameShaped :=
    pySet_eq_self husnd
  obtain ⟨u, hu, humem⟩ :=
    @pyMaxByCount_mem (identifiers.filter usernameShaped)
      (pySet (identifiers.filter usernameShaped)) (by rw [hset]; exact hne)
  refine ⟨u, by rw [hset] at humem; exact humem, ?_⟩
  have hlen : ((identifiers.filter usernameShaped).length : ℚ) ≠ 0 := by
    exact_mod_cast (List.length_pos.mpr hne).ne'
  have hscore : ((pySet (identifiers.filter usernameShaped)).length : ℚ)
      / ((identifiers.filter usernameShaped).length : ℚ) = 1 := by
    rw [hset]
    exact div_self hlen
  simp only [_analyze_username_consistency]
  rw [if_neg hne, hu, hscore]

/-- Witness for C10 (amended) at the spec's own example set
`{"johndoe", "john@example.com", "https://github.com/johndoe"}`. -/
theorem claim10_consistency_score_one_witness :
    List.Nodup ["johndoe", "john@example.com", "https://github.com/johndoe"] ∧
    List.filter usernameShaped ["johndoe", "john@example.com", "https://github.com/johndoe"]
      ≠ [] ∧
    ∃ u ∈ List.filter usernameShaped
        ["johndoe", "john@example.com", "https://github.com/johndoe"],
      _analyze_username_consistency ["johndoe", "john@example.com", "https://github.com/johndoe"]
        = ⟨PyNum.float 1, if u = "" then [] else [u],
           some (List.filter usernameShaped
             ["johndoe", "john@example.com", "https://github.com/johndoe"]).length⟩ :=
  ⟨by decide, by decide, claim10_consistency_score_one _ (by decide) (by decide)⟩

end DFI
